import Mathlib

/-!
# Skill Requirement Matching & Readiness Scoring Engine — verification

Shallow embedding of `supabase/functions/analyze-skill-gaps/index.ts`
(the Skill Normalizer, Matcher, Gap Calculator, Readiness Aggregator,
Remediation Orderer and the recompute handler around them), together with
theorems settling the specification claims about that code.

Conventions of the embedding:
* JS strings are Lean `String`s; `toLowerCase` is per-character ASCII
  lowercasing; `String.prototype.includes` is contiguous-substring search.
* Proficiency and requirement levels are `Nat` (the data model constrains
  them to 0–5 / 1–5; no arithmetic here can overflow JS safe integers).
* `Math.floor(l * 0.5)` on a natural `l` is `l / 2` (exact for these sizes);
  `Math.round(100 * a / t)` (round half towards +∞ on nonnegative input) is
  `(200 * a + t) / (2 * t)` in natural division.
* `confidence` (0.6 / 0.9 in the source) is stored as a percentage `Nat`
  (60 / 90) to keep every definition kernel-executable; no claim depends
  on its value.
* The database and the external generation service are modelled by explicit
  parameters (`GenOutcome`, `upsertOk`); supabase-js calls that the source
  does not check for errors are modelled as succeeding.
-/

namespace CareerGuide

/-- JS whitespace (`\s`) restricted to the characters that can occur in
skill names handled by this engine. -/
def isWs (c : Char) : Bool :=
  c = ' ' || c = '\t' || c = '\n' || c = '\r'

/-- `.replace(/\s+/g, ' ')`: collapse each maximal whitespace run to a
single space.  `prevWs` records whether the previously emitted character
closed a whitespace run. -/
def collapseWsAux : Bool → List Char → List Char
  | _, [] => []
  | prevWs, c :: rest =>
    if isWs c then
      if prevWs then collapseWsAux true rest
      else ' ' :: collapseWsAux true rest
    else c :: collapseWsAux false rest

/-- `.trim()`: drop leading and trailing whitespace. -/
def trimWs (l : List Char) : List Char :=
  ((l.dropWhile isWs).reverse.dropWhile isWs).reverse

/-- `String.prototype.toLowerCase` (ASCII). -/
def lowerStr (s : String) : String :=
  ⟨s.data.map Char.toLower⟩

/-- `normalizeSkill` from the source: lowercase, strip `.`/`-`/`_`,
collapse whitespace runs, trim. -/
def normalizeSkill (s : String) : String :=
  ⟨trimWs (collapseWsAux false
    ((s.data.map Char.toLower).filter (fun c => !(c = '.' || c = '-' || c = '_'))))⟩

/-- `hay.includes(needle)`: contiguous substring test, on character lists. -/
def listIncludes (needle : List Char) : List Char → Bool
  | [] => needle.isEmpty
  | c :: t => needle.isPrefixOf (c :: t) || listIncludes needle t

/-- `hay.includes(needle)` on strings. -/
def strIncludes (hay needle : String) : Bool :=
  listIncludes needle.data hay.data

/-- `user_skills` row as selected by the function (`skill_name, proficiency_level`). -/
structure UserSkill where
  skill_name : String
  proficiency_level : Nat
deriving DecidableEq, Repr

/-- `target_role_skills` row as selected (`skill_name, required_level, priority`). -/
structure TargetSkill where
  skill_name : String
  required_level : Nat
  priority : String
deriving DecidableEq, Repr

/-- `matchType` of a `SkillMatch`. -/
inductive MatchKind
  | exact
  | similar
  | transferable
deriving DecidableEq, Repr

/-- `SkillMatch` audit-trail entry (confidence as a percentage). -/
structure SkillMatch where
  requiredSkill : String
  userSkill : String
  matchType : MatchKind
  confidence : Nat
deriving DecidableEq, Repr

/-- `SkillGap` record as built by the handler. -/
structure SkillGap where
  skillName : String
  currentLevel : Nat
  requiredLevel : Nat
  gap : Nat
  priority : String
  recommendations : List String
  matchedUserSkill : Option String
deriving DecidableEq, Repr

/-- The `equivalents` alias table of `areSkillsSimilar`. -/
def equivalents : List (String × List String) :=
  [ ("javascript", ["js", "ecmascript", "es6", "es2015"])
  , ("typescript", ["ts"])
  , ("python", ["py", "python3"])
  , ("nodejs", ["node", "node js"])
  , ("reactjs", ["react", "reactjs"])
  , ("vuejs", ["vue", "vuejs"])
  , ("angularjs", ["angular"])
  , ("postgresql", ["postgres", "psql"])
  , ("mongodb", ["mongo"])
  , ("kubernetes", ["k8s"])
  , ("amazon web services", ["aws"])
  , ("google cloud platform", ["gcp"])
  , ("microsoft azure", ["azure"])
  , ("machine learning", ["ml"])
  , ("artificial intelligence", ["ai"])
  , ("natural language processing", ["nlp"])
  , ("continuous integration", ["ci"])
  , ("continuous deployment", ["cd"])
  , ("cicd", ["ci/cd", "ci cd"])
  , ("project management", ["pm", "project mgmt"])
  , ("user experience", ["ux"])
  , ("user interface", ["ui"])
  , ("search engine optimization", ["seo"]) ]

/-- `areSkillsSimilar` from the source. -/
def areSkillsSimilar (skill1 skill2 : String) : Bool :=
  let norm1 := normalizeSkill skill1
  let norm2 := normalizeSkill skill2
  if norm1 = norm2 then true
  else if strIncludes norm1 norm2 || strIncludes norm2 norm1 then true
  else equivalents.any fun p =>
    let allVariants := p.1 :: p.2
    (allVariants.any fun v => strIncludes norm1 v || strIncludes v norm1) &&
    (allVariants.any fun v => strIncludes norm2 v || strIncludes v norm2)

/-- The `transferableMap` category table of `findTransferableSkills`. -/
def transferableMap : List (String × List String) :=
  [ ("leadership", ["team management", "management", "mentoring", "coaching"])
  , ("communication", ["presentation", "public speaking", "writing", "technical writing"])
  , ("problem solving", ["analytical thinking", "critical thinking", "debugging", "troubleshooting"])
  , ("programming", ["coding", "software development", "development"])
  , ("data analysis", ["analytics", "data science", "statistics", "excel"])
  , ("design", ["graphic design", "visual design", "ui design", "ux design"])
  , ("marketing", ["digital marketing", "content marketing", "social media"])
  , ("sales", ["business development", "account management", "customer relations"]) ]

/-- Membership of a normalized name in one category row
(`norm.includes(category) || related.some(r => norm.includes(r))`). -/
def inCategory (norm category : String) (related : List String) : Bool :=
  strIncludes norm category || related.any (fun r => strIncludes norm r)

/-- Inner loop of `findTransferableSkills`: first user skill in the same
category whose lowercased name differs from the target's. -/
def findTransferUser (userSkills : List UserSkill) (targetSkill : TargetSkill)
    (category : String) (related : List String) : Option UserSkill :=
  userSkills.find? fun u =>
    inCategory (normalizeSkill u.skill_name) category related &&
      lowerStr u.skill_name ≠ lowerStr targetSkill.skill_name

/-- `findTransferableSkills` scanning the category table in order; if the
target falls in a category but no user skill qualifies there, the outer
loop continues with the next category. -/
def findTransferableAux (userSkills : List UserSkill) (targetSkill : TargetSkill) :
    List (String × List String) → Option SkillMatch
  | [] => none
  | (category, related) :: rest =>
    if inCategory (normalizeSkill targetSkill.skill_name) category related then
      match findTransferUser userSkills targetSkill category related with
      | some u =>
        some { requiredSkill := targetSkill.skill_name
             , userSkill := u.skill_name
             , matchType := .transferable
             , confidence := 60 }
      | none => findTransferableAux userSkills targetSkill rest
    else findTransferableAux userSkills targetSkill rest

/-- `findTransferableSkills` from the source. -/
def findTransferableSkills (userSkills : List UserSkill) (targetSkill : TargetSkill) :
    Option SkillMatch :=
  findTransferableAux userSkills targetSkill transferableMap

/-- The `userSkillMap` of the handler: keys are lowercased user-skill names,
`Map.set` lets a later entry overwrite an earlier one, and the handler reads
it as `map.get(key) || 0` (missing ⇒ 0; a stored 0 also yields 0). -/
def userSkillMapGet (userSkills : List UserSkill) (key : String) : Nat :=
  match userSkills.reverse.find? (fun u => lowerStr u.skill_name = key) with
  | some u => u.proficiency_level
  | none => 0

/-- First user skill the `areSkillsSimilar` loop accepts for a target. -/
def similarFound (userSkills : List UserSkill) (target : TargetSkill) : Option UserSkill :=
  userSkills.find? (fun u => areSkillsSimilar u.skill_name target.skill_name)

/-- The mutable per-target state of the handler loop: `currentLevel`,
`matchedUserSkill`, and the `SkillMatch` entries pushed so far. -/
structure TierState where
  currentLevel : Nat
  matchedUserSkill : Option String
  pushed : List SkillMatch
deriving DecidableEq, Repr

/-- Exact tier: `userSkillMap.get(target.skill_name.toLowerCase()) || 0`. -/
def tierExact (userSkills : List UserSkill) (target : TargetSkill) : TierState :=
  { currentLevel := userSkillMapGet userSkills (lowerStr target.skill_name)
  , matchedUserSkill := none
  , pushed := [] }

/-- Similar tier (`if (currentLevel === 0) { ... areSkillsSimilar ... }`). -/
def tierSimilar (userSkills : List UserSkill) (target : TargetSkill)
    (st : TierState) : TierState :=
  if st.currentLevel = 0 then
    match similarFound userSkills target with
    | some u =>
      { currentLevel := u.proficiency_level
      , matchedUserSkill := some u.skill_name
      , pushed := st.pushed ++
          [{ requiredSkill := target.skill_name, userSkill := u.skill_name
           , matchType := .similar, confidence := 90 }] }
    | none => st
  else st

/-- Transferable tier (`if (currentLevel === 0) { findTransferableSkills ... }`):
50% credit rounded down, `matchedUserSkill` annotated `"(transferable)"`. -/
def tierTransferable (userSkills : List UserSkill) (target : TargetSkill)
    (st : TierState) : TierState :=
  if st.currentLevel = 0 then
    match findTransferableSkills userSkills target with
    | some m =>
      match userSkills.find? (fun s => s.skill_name = m.userSkill) with
      | some u =>
        { currentLevel := u.proficiency_level / 2
        , matchedUserSkill := some (m.userSkill ++ " (transferable)")
        , pushed := st.pushed ++ [m] }
      | none => st
    | none => st
  else st

/-- One iteration of the `skillGaps` map: the produced `SkillGap` record and
the `SkillMatch` entries pushed for this target.  `gap` is
`Math.max(0, required_level - currentLevel)`, i.e. truncated subtraction. -/
def matchTarget (userSkills : List UserSkill) (target : TargetSkill) :
    SkillGap × List SkillMatch :=
  let st := tierTransferable userSkills target
    (tierSimilar userSkills target (tierExact userSkills target))
  ({ skillName := target.skill_name
   , currentLevel := st.currentLevel
   , requiredLevel := target.required_level
   , gap := target.required_level - st.currentLevel
   , priority := target.priority
   , recommendations := []
   , matchedUserSkill := st.matchedUserSkill }, st.pushed)

/-- All per-target `SkillGap` records, in requirement order (before the
`gap > 0` filter and the sort). -/
def gapRecords (userSkills : List UserSkill) (targetSkills : List TargetSkill) :
    List SkillGap :=
  targetSkills.map (fun t => (matchTarget userSkills t).1)

/-- The `skillMatches` audit trail accumulated across all targets. -/
def skillMatchesOf (userSkills : List UserSkill) (targetSkills : List TargetSkill) :
    List SkillMatch :=
  (targetSkills.map (fun t => (matchTarget userSkills t).2)).flatten

/-- `priorityOrder` lookup of the sort comparator (the data model restricts
priorities to the four listed values; anything else ranks last here). -/
def priorityRank (p : String) : Nat :=
  if p = "critical" then 0
  else if p = "high" then 1
  else if p = "medium" then 2
  else if p = "low" then 3
  else 4

/-- Sort order used for `criticalGaps`, on records tagged with their index in
the original requirement order: the source comparator (priority rank
ascending, then `gap` descending) with the original index as final
tiebreaker.  `Array.prototype.sort` is stable (ES2019), and a stable sort by
a comparator is exactly a sort by that comparator extended with the original
index, so this tagged order captures the JS call. -/
def gapLE (a b : Nat × SkillGap) : Prop :=
  priorityRank a.2.priority < priorityRank b.2.priority ∨
    (priorityRank a.2.priority = priorityRank b.2.priority ∧
      (b.2.gap < a.2.gap ∨ (a.2.gap = b.2.gap ∧ a.1 ≤ b.1)))

instance : DecidableRel gapLE := fun a b => by
  unfold gapLE; infer_instance

instance : IsTotal (Nat × SkillGap) gapLE := by
  constructor
  intro a b
  unfold gapLE
  omega

instance : IsTrans (Nat × SkillGap) gapLE := by
  constructor
  intro a b c hab hbc
  unfold gapLE at *
  omega

/-- `criticalGaps` with each record tagged by its original requirement index:
`.filter(gap => gap.gap > 0).sort(comparator)`. -/
def criticalGapsTagged (userSkills : List UserSkill) (targetSkills : List TargetSkill) :
    List (Nat × SkillGap) :=
  List.insertionSort gapLE
    ((gapRecords userSkills targetSkills).enum.filter (fun p => decide (0 < p.2.gap)))

/-- The `criticalGaps` list stored in the analysis (tags removed). -/
def criticalGaps (userSkills : List UserSkill) (targetSkills : List TargetSkill) :
    List SkillGap :=
  (criticalGapsTagged userSkills targetSkills).map Prod.snd

/-- Per-target `current` of the readiness loop (lines 354–371): exact map
lookup, then the `areSkillsSimilar` loop — the transferable tier is *not*
consulted here. -/
def readinessCurrent (userSkills : List UserSkill) (target : TargetSkill) : Nat :=
  let c := userSkillMapGet userSkills (lowerStr target.skill_name)
  if c = 0 then
    match similarFound userSkills target with
    | some u => u.proficiency_level
    | none => 0
  else c

/-- `totalRequired` accumulator of the readiness loop. -/
def totalRequired (targetSkills : List TargetSkill) : Nat :=
  (targetSkills.map (fun t => t.required_level)).sum

/-- `totalAchieved` accumulator: `Math.min(current, required_level)` summed. -/
def totalAchieved (userSkills : List UserSkill) (targetSkills : List TargetSkill) : Nat :=
  (targetSkills.map (fun t => min (readinessCurrent userSkills t) t.required_level)).sum

/-- `Math.round((achieved / required) * 100)` for naturals (round half up),
with the source's `required > 0` guard returning 0 otherwise. -/
def jsRound100 (achieved required : Nat) : Nat :=
  if 0 < required then (200 * achieved + required) / (2 * required) else 0

/-- `overallReadiness` from the source. -/
def overallReadiness (userSkills : List UserSkill) (targetSkills : List TargetSkill) : Nat :=
  jsRound100 (totalAchieved userSkills targetSkills) (totalRequired targetSkills)

/-- A `user_skills` row as stored (the handler's auto-add also writes
`source`). -/
structure SkillRecord where
  skill_name : String
  proficiency_level : Nat
  source : String
deriving DecidableEq, Repr

/-- The columns of a stored record that the handler's select fetches. -/
def toUserSkill (r : SkillRecord) : UserSkill :=
  ⟨r.skill_name, r.proficiency_level⟩

/-- Auto-add side effect (lines 266–284): every target skill whose
lowercased name has no lowercase-equal fetched user skill is upserted at
proficiency 0 with source `role_requirement`; nothing happens when the
target list is empty.  The upsert's conflict target is `(user_id,
skill_name)` and only previously missing names are sent, so the write is a
pure insert, modelled as an append. -/
def autoAdd (profile : List SkillRecord) (targetSkills : List TargetSkill) :
    List SkillRecord :=
  if targetSkills.isEmpty then profile
  else
    let existing := profile.map (fun s => lowerStr s.skill_name)
    let toAdd := (targetSkills.filter
        (fun t => !(existing.contains (lowerStr t.skill_name)))).map
      (fun t => ({ skill_name := t.skill_name
                 , proficiency_level := 0
                 , source := "role_requirement" } : SkillRecord))
    profile ++ toAdd

/-- One skill object parsed out of the generation response. -/
structure RawGenSkill where
  skillName : String
  requiredLevel : Nat
  priority : String
deriving DecidableEq, Repr

/-- `skillsToInsert` mapping: `Math.min(5, Math.max(1, skill.requiredLevel || 3))`
and priority validated against the four allowed values. -/
def clampGenSkill (s : RawGenSkill) : TargetSkill :=
  { skill_name := s.skillName
  , required_level := min 5 (max 1 (if s.requiredLevel = 0 then 3 else s.requiredLevel))
  , priority :=
      if ["critical", "high", "medium", "low"].contains s.priority then s.priority
      else "medium" }

/-- Outcome of the requirement-generation call when the role has no stored
target skills: parsed successfully, non-ok HTTP response, ok response whose
body could not be parsed as JSON, or the fetch itself throwing. -/
inductive GenOutcome
  | ok (skills : List RawGenSkill)
  | httpError
  | parseError
  | fetchThrew
deriving DecidableEq, Repr

/-- The `skill_gap_analysis` row assembled by the handler. -/
structure SkillGapAnalysis where
  overall_readiness : Nat
  critical_gaps : List SkillGap
  recommendations : List String
  skillMatches : List SkillMatch
deriving DecidableEq, Repr

/-- The analysis the handler computes before the upsert.  The
recommendation call only happens when `skillGaps` is non-empty; its parsed
result is the `recs` parameter. -/
def mkAnalysis (userSkills : List UserSkill) (targetSkills : List TargetSkill)
    (recs : List String) : SkillGapAnalysis :=
  { overall_readiness := overallReadiness userSkills targetSkills
  , critical_gaps := criticalGaps userSkills targetSkills
  , recommendations := if (criticalGaps userSkills targetSkills).isEmpty then [] else recs
  , skillMatches := skillMatchesOf userSkills targetSkills }

/-- Target skills the handler ends up analysing.  With stored requirements
they are used as-is and no generation call is made.  With none stored:
a parsed response is clamped and inserted (insert modelled as succeeding,
so `insertedSkills` is the inserted list); a non-ok response or a parse
failure leaves `targetSkills` empty and execution *continues*; a thrown
fetch propagates to the outer catch (`none`). -/
def effectiveTargets (storedReqs : List TargetSkill) (gen : GenOutcome) :
    Option (List TargetSkill) :=
  if storedReqs.isEmpty then
    match gen with
    | .ok raws => some (raws.map clampGenSkill)
    | .httpError => some []
    | .parseError => some []
    | .fetchThrew => none
  else some storedReqs

/-- Observable outcome of one `serve` invocation: HTTP status, the
`skill_gap_analysis` row written (none if the upsert failed or the handler
threw first), the analysis in the 200 response body, and the user's profile
rows afterwards. -/
structure RecomputeResult where
  status : Nat
  storedAnalysis : Option SkillGapAnalysis
  responseAnalysis : Option SkillGapAnalysis
  profileAfter : List SkillRecord
deriving DecidableEq, Repr

/-- The handler pipeline after authentication and the two selects
(lines 203–494).  `upsertOk` models whether the `skill_gap_analysis` upsert
succeeds; on failure the source only logs (`console.error`) and still
returns a 200 response whose body carries the locally built fallback
analysis object with the same fields. -/
def recompute (storedReqs : List TargetSkill) (gen : GenOutcome)
    (profile : List SkillRecord) (recs : List String) (upsertOk : Bool) :
    RecomputeResult :=
  match effectiveTargets storedReqs gen with
  | none =>
    { status := 500, storedAnalysis := none, responseAnalysis := none
    , profileAfter := profile }
  | some ts =>
    let userSkills := profile.map toUserSkill
    let analysis := mkAnalysis userSkills ts recs
    { status := 200
    , storedAnalysis := if upsertOk then some analysis else none
    , responseAnalysis := some analysis
    , profileAfter := autoAdd profile ts }

/-! ## Helper lemmas -/

/-- Every match `findTransferableSkills` returns is of transferable type. -/
theorem findTransferableAux_matchType (us : List UserSkill) (t : TargetSkill)
    (l : List (String × List String)) (m : SkillMatch)
    (h : findTransferableAux us t l = some m) : m.matchType = .transferable := by
  induction l with
  | nil => simp [findTransferableAux] at h
  | cons hd tl ih =>
    rw [findTransferableAux] at h
    split at h
    · split at h
      · cases h
        rfl
      · exact ih h
    · exact ih h

/-- Every match `findTransferableSkills` returns is of transferable type. -/
theorem findTransferableSkills_matchType (us : List UserSkill) (t : TargetSkill)
    (m : SkillMatch) (h : findTransferableSkills us t = some m) :
    m.matchType = .transferable :=
  findTransferableAux_matchType us t transferableMap m h

/-- If no transferable `SkillMatch` is pushed for a target, the Gap
Calculator's `currentLevel` coincides with the readiness loop's `current`
for that target. -/
theorem matchTarget_current_of_no_transferable (us : List UserSkill) (t : TargetSkill)
    (h : ∀ m ∈ (matchTarget us t).2, m.matchType ≠ MatchKind.transferable) :
    (matchTarget us t).1.currentLevel = readinessCurrent us t := by
  by_cases hc : userSkillMapGet us (lowerStr t.skill_name) = 0
  · rcases hs : similarFound us t with _ | u
    · rcases ht : findTransferableSkills us t with _ | m
      · simp [matchTarget, tierExact, tierSimilar, tierTransferable, readinessCurrent,
          hc, hs, ht]
      · rcases hu : us.find? (fun s => s.skill_name = m.userSkill) with _ | u'
        · simp [matchTarget, tierExact, tierSimilar, tierTransferable, readinessCurrent,
            hc, hs, ht, hu]
        · exfalso
          apply h m _ (findTransferableSkills_matchType us t m ht)
          simp [matchTarget, tierExact, tierSimilar, tierTransferable, hc, hs, ht, hu]
    · by_cases hu0 : u.proficiency_level = 0
      · rcases ht : findTransferableSkills us t with _ | m
        · simp [matchTarget, tierExact, tierSimilar, tierTransferable, readinessCurrent,
            hc, hs, ht, hu0]
        · rcases hu : us.find? (fun s => s.skill_name = m.userSkill) with _ | u'
          · simp [matchTarget, tierExact, tierSimilar, tierTransferable, readinessCurrent,
              hc, hs, ht, hu, hu0]
          · exfalso
            apply h m _ (findTransferableSkills_matchType us t m ht)
            simp [matchTarget, tierExact, tierSimilar, tierTransferable, hc, hs, ht, hu, hu0]
      · simp [matchTarget, tierExact, tierSimilar, tierTransferable, readinessCurrent,
          hc, hs, hu0]
  · simp [matchTarget, tierExact, tierSimilar, tierTransferable, readinessCurrent, hc]

/-- The achieved sum never exceeds the required sum. -/
theorem totalAchieved_le_totalRequired (us : List UserSkill) (ts : List TargetSkill) :
    totalAchieved us ts ≤ totalRequired ts :=
  List.sum_le_sum fun t _ => min_le_right (readinessCurrent us t) t.required_level

/-! ## Claim theorems -/

/-- C10: a required skill whose only qualifying match is a transferable
donor at raw level 1 is credited `floor(1 × 0.5) = 0`, yet its gap record
carries `matchedUserSkill = "<donor> (transferable)"` and a transferable
entry is still appended to the `skillMatches` audit trail. -/
theorem C10_zero_credit_transferable :
    criticalGaps [⟨"Team Management", 1⟩] [⟨"Leadership", 3, "high"⟩] =
      [{ skillName := "Leadership", currentLevel := 0, requiredLevel := 3, gap := 3
       , priority := "high", recommendations := []
       , matchedUserSkill := some "Team Management (transferable)" }] ∧
    skillMatchesOf [⟨"Team Management", 1⟩] [⟨"Leadership", 3, "high"⟩] =
      [{ requiredSkill := "Leadership", userSkill := "Team Management"
       , matchType := .transferable, confidence := 60 }] := by
  decide

/-- C1 counterexample: on the spec's example scenario (role `{SQL: 4
critical, Leadership: 3 high}`, user `{sql: 2, Team Management: 4}`) the
code yields `overallReadiness = 29`, not the claimed 57, even though the
Gap Calculator credits Leadership with level 2 via the transferable match —
the readiness loop does not consult the transferable tier. -/
theorem C1_readiness_counterexample :
    overallReadiness [⟨"sql", 2⟩, ⟨"Team Management", 4⟩]
        [⟨"SQL", 4, "critical"⟩, ⟨"Leadership", 3, "high"⟩] = 29 ∧
    (matchTarget [⟨"sql", 2⟩, ⟨"Team Management", 4⟩]
        ⟨"Leadership", 3, "high"⟩).1.currentLevel = 2 ∧
    (29 : Nat) ≠ 57 := by
  decide

/-- C1 (amended): `overallReadiness` equals
`round(100 × Σ min(currentLevel, requiredLevel) / Σ requiredLevel)` over the
Gap Calculator's per-skill `currentLevel` whenever no required skill is
credited through the transferable tier (the readiness loop recomputes
credit from the exact and similar tiers only); and a role with zero
required-level total still yields readiness 0. -/
theorem C1_readiness_formula (us : List UserSkill) (ts : List TargetSkill)
    (h : ∀ t ∈ ts, ∀ m ∈ (matchTarget us t).2, m.matchType ≠ MatchKind.transferable) :
    overallReadiness us ts =
      jsRound100 ((ts.map (fun t => min (matchTarget us t).1.currentLevel t.required_level)).sum)
        (totalRequired ts) ∧
    (totalRequired ts = 0 → overallReadiness us ts = 0) := by
  constructor
  · have hmap : (ts.map (fun t => min (matchTarget us t).1.currentLevel t.required_level))
        = ts.map (fun t => min (readinessCurrent us t) t.required_level) :=
      List.map_congr_left fun t ht => by
        rw [matchTarget_current_of_no_transferable us t (h t ht)]
    rw [overallReadiness, totalAchieved, hmap]
  · intro h0
    simp [overallReadiness, jsRound100, h0]

/-- Witness for C1 (amended) at a concrete input: one exactly-matched
skill, no transferable credit, readiness `round(100 × 2/4) = 50`. -/
theorem C1_readiness_formula_witness :
    overallReadiness [⟨"sql", 2⟩] [⟨"SQL", 4, "critical"⟩] =
      jsRound100 (([⟨"SQL", 4, "critical"⟩].map (fun t =>
        min (matchTarget [⟨"sql", 2⟩] t).1.currentLevel t.required_level)).sum)
        (totalRequired [⟨"SQL", 4, "critical"⟩]) ∧
    (totalRequired [⟨"SQL", 4, "critical"⟩] = 0 →
      overallReadiness [⟨"sql", 2⟩] [⟨"SQL", 4, "critical"⟩] = 0) :=
  C1_readiness_formula [⟨"sql", 2⟩] [⟨"SQL", 4, "critical"⟩] (by decide)

/-- C2 counterexample: user skill `nodejs` (level 3) and required skill
`Node.js` have equal *normalized* names, yet the outcome is a `similar`-tier
match (an audit entry is pushed and `matchedUserSkill` is populated —
which the spec says never happens for exact matches): the exact tier keys
on the merely lowercased name, which differs. -/
theorem C2_exact_tier_counterexample :
    normalizeSkill "nodejs" = normalizeSkill "Node.js" ∧
    (matchTarget [⟨"nodejs", 3⟩] ⟨"Node.js", 3, "critical"⟩).2 =
      [{ requiredSkill := "Node.js", userSkill := "nodejs"
       , matchType := .similar, confidence := 90 }] ∧
    (matchTarget [⟨"nodejs", 3⟩] ⟨"Node.js", 3, "critical"⟩).1.matchedUserSkill =
      some "nodejs" := by
  decide

/-- C2 (amended): the exact tier keys on the *lowercased* (not fully
normalized) name — whenever the lowercase-keyed user-skill map yields a
nonzero level for the required skill's lowercased name, the outcome is an
exact match: `currentLevel` is that user skill's raw proficiency,
`matchedUserSkill` stays unset and no audit entry is pushed, regardless of
any alias/category table entries.  (A user skill whose name is only
normalization-equal, or whose level is 0, falls through to the similar
tier instead.) -/
theorem C2_exact_tier (us : List UserSkill) (t : TargetSkill)
    (h : userSkillMapGet us (lowerStr t.skill_name) ≠ 0) :
    (matchTarget us t).1.currentLevel = userSkillMapGet us (lowerStr t.skill_name) ∧
    (matchTarget us t).1.matchedUserSkill = none ∧
    (matchTarget us t).2 = [] ∧
    ∃ u ∈ us, lowerStr u.skill_name = lowerStr t.skill_name ∧
      u.proficiency_level = (matchTarget us t).1.currentLevel := by
  have hmain : (matchTarget us t).1.currentLevel = userSkillMapGet us (lowerStr t.skill_name) ∧
      (matchTarget us t).1.matchedUserSkill = none ∧ (matchTarget us t).2 = [] := by
    simp [matchTarget, tierExact, tierSimilar, tierTransferable, h]
  refine ⟨hmain.1, hmain.2.1, hmain.2.2, ?_⟩
  rcases hf : us.reverse.find? (fun u => lowerStr u.skill_name = lowerStr t.skill_name)
    with _ | u
  · exfalso
    apply h
    simp [userSkillMapGet, hf]
  · refine ⟨u, ?_, ?_, ?_⟩
    · have := List.mem_of_find?_eq_some hf
      exact List.mem_reverse.mp this
    · have := List.find?_some hf
      simpa using this
    · rw [hmain.1]
      simp [userSkillMapGet, hf]

/-- Witness for C2 (amended): user `SQL` at level 2 against required `sql`
— lowercased names coincide and the level is nonzero. -/
theorem C2_exact_tier_witness :
    (matchTarget [⟨"SQL", 2⟩] ⟨"sql", 4, "critical"⟩).1.currentLevel =
      userSkillMapGet [⟨"SQL", 2⟩] (lowerStr "sql") ∧
    (matchTarget [⟨"SQL", 2⟩] ⟨"sql", 4, "critical"⟩).1.matchedUserSkill = none ∧
    (matchTarget [⟨"SQL", 2⟩] ⟨"sql", 4, "critical"⟩).2 = [] ∧
    ∃ u ∈ [(⟨"SQL", 2⟩ : UserSkill)], lowerStr u.skill_name = lowerStr "sql" ∧
      u.proficiency_level = (matchTarget [⟨"SQL", 2⟩] ⟨"sql", 4, "critical"⟩).1.currentLevel :=
  C2_exact_tier [⟨"SQL", 2⟩] ⟨"sql", 4, "critical"⟩ (by decide)

/-- C3 counterexample: with no stored requirements and an unparseable
generation response, the handler does not fail — it returns HTTP 200 and
writes an analysis record (readiness 0, empty gap list) for the pair. -/
theorem C3_generation_failure_counterexample :
    (recompute [] .parseError [] [] true).status = 200 ∧
    (recompute [] .parseError [] [] true).storedAnalysis =
      some { overall_readiness := 0, critical_gaps := []
           , recommendations := [], skillMatches := [] } := by
  decide

/-- C3 (amended): when a role has no stored RequiredSkills and requirement
generation is unavailable (non-ok response or unparseable body), recompute
*succeeds*: it proceeds with an empty requirement set, stores an analysis
with `overallReadiness = 0` and no gaps for the pair, and returns HTTP 200
— callers cannot distinguish this from "role has zero requirements". -/
theorem C3_generation_failure (gen : GenOutcome) (profile : List SkillRecord)
    (recs : List String) (h : gen = .httpError ∨ gen = .parseError) :
    (recompute [] gen profile recs true).status = 200 ∧
    (recompute [] gen profile recs true).storedAnalysis =
      some { overall_readiness := 0, critical_gaps := []
           , recommendations := [], skillMatches := [] } := by
  have hempty : ∀ us : List UserSkill, mkAnalysis us [] recs =
      { overall_readiness := 0, critical_gaps := []
      , recommendations := [], skillMatches := [] } := by
    intro us
    simp [mkAnalysis, overallReadiness, jsRound100, totalRequired, totalAchieved,
      criticalGaps, criticalGapsTagged, gapRecords, skillMatchesOf, List.insertionSort]
  rcases h with h | h <;> subst h <;>
    simp [recompute, effectiveTargets, hempty]

/-- Witness for C3 (amended) at the parse-failure outcome. -/
theorem C3_generation_failure_witness :
    (recompute [] .httpError [⟨"sql", 2, "manual"⟩] ["r"] true).status = 200 ∧
    (recompute [] .httpError [⟨"sql", 2, "manual"⟩] ["r"] true).storedAnalysis =
      some { overall_readiness := 0, critical_gaps := []
           , recommendations := [], skillMatches := [] } :=
  C3_generation_failure .httpError [⟨"sql", 2, "manual"⟩] ["r"] (Or.inl rfl)

/-- C4 counterexample: when the analysis upsert fails, the handler still
returns HTTP 200 (with the locally built analysis in the body); nothing is
stored, but the caller sees success. -/
theorem C4_upsert_failure_counterexample :
    (recompute [⟨"SQL", 4, "critical"⟩] .httpError [⟨"sql", 2, "manual"⟩] [] false).status
      = 200 ∧
    (recompute [⟨"SQL", 4, "critical"⟩] .httpError [⟨"sql", 2, "manual"⟩] [] false).storedAnalysis
      = none := by
  decide

/-- C4 (amended): an analysis-store upsert failure is only logged: the call
still returns HTTP 200, with the locally computed analysis as its body, and
no record is written — the caller cannot observe that the analysis was not
saved. -/
theorem C4_upsert_failure (storedReqs ts : List TargetSkill) (gen : GenOutcome)
    (profile : List SkillRecord) (recs : List String)
    (h : effectiveTargets storedReqs gen = some ts) :
    (recompute storedReqs gen profile recs false).status = 200 ∧
    (recompute storedReqs gen profile recs false).storedAnalysis = none ∧
    (recompute storedReqs gen profile recs false).responseAnalysis =
      some (mkAnalysis (profile.map toUserSkill) ts recs) := by
  simp [recompute, h]

/-- Witness for C4 (amended) with one stored requirement. -/
theorem C4_upsert_failure_witness :
    (recompute [⟨"SQL", 4, "critical"⟩] .httpError [⟨"sql", 2, "manual"⟩] [] false).status
      = 200 ∧
    (recompute [⟨"SQL", 4, "critical"⟩] .httpError [⟨"sql", 2, "manual"⟩] [] false).storedAnalysis
      = none ∧
    (recompute [⟨"SQL", 4, "critical"⟩] .httpError [⟨"sql", 2, "manual"⟩] [] false).responseAnalysis
      = some (mkAnalysis ([⟨"sql", 2, "manual"⟩].map toUserSkill) [⟨"SQL", 4, "critical"⟩] []) :=
  C4_upsert_failure [⟨"SQL", 4, "critical"⟩] [⟨"SQL", 4, "critical"⟩] .httpError
    [⟨"sql", 2, "manual"⟩] [] (by decide)

/-- C5: when a required skill's only available match is transferable — the
exact lookup yields 0, the similar loop finds nothing, and
`findTransferableSkills` returns a match whose donor resolves to user skill
`u` — the credited `currentLevel` is `floor(L × 0.5) = L / 2` of the
donor's raw level `L` (never `L` itself when `L > 0`), `matchedUserSkill`
is the donor's name annotated with `" (transferable)"`, and exactly the
transferable entry is pushed to the audit trail. -/
theorem C5_transferable_discount (us : List UserSkill) (t : TargetSkill)
    (m : SkillMatch) (u : UserSkill)
    (hexact : userSkillMapGet us (lowerStr t.skill_name) = 0)
    (hsim : similarFound us t = none)
    (htr : findTransferableSkills us t = some m)
    (hu : us.find? (fun s => s.skill_name = m.userSkill) = some u) :
    (matchTarget us t).1.currentLevel = u.proficiency_level / 2 ∧
    (matchTarget us t).1.matchedUserSkill = some (m.userSkill ++ " (transferable)") ∧
    (matchTarget us t).2 = [m] ∧
    (0 < u.proficiency_level →
      (matchTarget us t).1.currentLevel ≠ u.proficiency_level) := by
  have hmain : (matchTarget us t).1.currentLevel = u.proficiency_level / 2 ∧
      (matchTarget us t).1.matchedUserSkill = some (m.userSkill ++ " (transferable)") ∧
      (matchTarget us t).2 = [m] := by
    simp [matchTarget, tierExact, tierSimilar, tierTransferable, hexact, hsim, htr, hu]
  refine ⟨hmain.1, hmain.2.1, hmain.2.2, ?_⟩
  intro hpos
  rw [hmain.1]
  omega

/-- Witness for C5 at the Leadership / Team Management (level 4) example:
credit `floor(4 × 0.5) = 2`. -/
theorem C5_transferable_discount_witness :
    (matchTarget [⟨"Team Management", 4⟩] ⟨"Leadership", 3, "high"⟩).1.currentLevel =
      (4 : Nat) / 2 ∧
    (matchTarget [⟨"Team Management", 4⟩] ⟨"Leadership", 3, "high"⟩).1.matchedUserSkill =
      some ("Team Management" ++ " (transferable)") ∧
    (matchTarget [⟨"Team Management", 4⟩] ⟨"Leadership", 3, "high"⟩).2 =
      [{ requiredSkill := "Leadership", userSkill := "Team Management"
       , matchType := .transferable, confidence := 60 }] ∧
    (0 < (4 : Nat) →
      (matchTarget [⟨"Team Management", 4⟩] ⟨"Leadership", 3, "high"⟩).1.currentLevel ≠ 4) :=
  C5_transferable_discount [⟨"Team Management", 4⟩] ⟨"Leadership", 3, "high"⟩
    { requiredSkill := "Leadership", userSkill := "Team Management"
    , matchType := .transferable, confidence := 60 }
    ⟨"Team Management", 4⟩ (by decide) (by decide) (by decide) (by decide)

/-- C7 counterexample: role `{Leadership: 1 high}`, user
`{Team Management: 2}` — the Gap Calculator credits `currentLevel = 1 ≥
requiredLevel = 1` (the only required skill is fully satisfied, its gap is
0), yet `overallReadiness = 0`, not 100: the readiness loop ignores
transferable credit, so the claimed iff fails. -/
theorem C7_readiness_100_counterexample :
    gapRecords [⟨"Team Management", 2⟩] [⟨"Leadership", 1, "high"⟩] =
      [{ skillName := "Leadership", currentLevel := 1, requiredLevel := 1, gap := 0
       , priority := "high", recommendations := []
       , matchedUserSkill := some "Team Management (transferable)" }] ∧
    overallReadiness [⟨"Team Management", 2⟩] [⟨"Leadership", 1, "high"⟩] = 0 := by
  decide

/-- C7 (amended): `0 ≤ overallReadiness ≤ 100` holds for every input; but
readiness 100 is equivalent to the round-half-up of the exact/similar-tier
achievement ratio reaching 100, i.e. `totalRequired > 0` and
`199·totalRequired ≤ 200·totalAchieved` — not to every required skill's
credited `currentLevel` reaching its requirement. -/
theorem C7_readiness_bounds (us : List UserSkill) (ts : List TargetSkill) :
    overallReadiness us ts ≤ 100 ∧
    (overallReadiness us ts = 100 ↔
      0 < totalRequired ts ∧
        199 * totalRequired ts ≤ 200 * totalAchieved us ts) := by
  have hAT := totalAchieved_le_totalRequired us ts
  by_cases hT : 0 < totalRequired ts
  · have h2T : 0 < 2 * totalRequired ts := by omega
    have hlt : (200 * totalAchieved us ts + totalRequired ts) / (2 * totalRequired ts) < 101 := by
      rw [Nat.div_lt_iff_lt_mul h2T]
      omega
    have hge : 100 ≤ (200 * totalAchieved us ts + totalRequired ts) / (2 * totalRequired ts) ↔
        100 * (2 * totalRequired ts) ≤ 200 * totalAchieved us ts + totalRequired ts :=
      Nat.le_div_iff_mul_le h2T
    constructor
    · simp only [overallReadiness, jsRound100, if_pos hT]
      omega
    · simp only [overallReadiness, jsRound100, if_pos hT]
      omega
  · simp only [overallReadiness, jsRound100, if_neg hT]
    omega

/-- C8: every entry of `criticalGaps` satisfies
`gap = max(0, requiredLevel − currentLevel)` (truncated subtraction on
naturals, equivalently the integer `max`), and its gap is strictly
positive — satisfied skills never appear. -/
theorem C8_gap_nonneg (us : List UserSkill) (ts : List TargetSkill)
    (g : SkillGap) (hg : g ∈ criticalGaps us ts) :
    g.gap = g.requiredLevel - g.currentLevel ∧
    (g.gap : ℤ) = max 0 ((g.requiredLevel : ℤ) - (g.currentLevel : ℤ)) ∧
    0 < g.gap := by
  rcases List.mem_map.mp hg with ⟨p, hp, hpg⟩
  rw [criticalGapsTagged, List.mem_insertionSort, List.mem_filter] at hp
  obtain ⟨hpe, hgap⟩ := hp
  have hpos : 0 < g.gap := by
    rw [← hpg]
    simpa using hgap
  have hmem : g ∈ gapRecords us ts := by
    rw [← hpg]
    have : p.2 ∈ (gapRecords us ts).enum.map Prod.snd := List.mem_map_of_mem Prod.snd hpe
    rwa [List.enum_map_snd] at this
  rcases List.mem_map.mp hmem with ⟨t, _, htg⟩
  have hshape : g.gap = g.requiredLevel - g.currentLevel := by
    rw [← htg]
    rfl
  refine ⟨hshape, ?_, hpos⟩
  omega

/-- Witness for C8: the Python example gap (required 5, current 0). -/
theorem C8_gap_nonneg_witness :
    ({ skillName := "Python", currentLevel := 0, requiredLevel := 5, gap := 5
     , priority := "critical", recommendations := []
     , matchedUserSkill := none } : SkillGap).gap =
      ({ skillName := "Python", currentLevel := 0, requiredLevel := 5, gap := 5
       , priority := "critical", recommendations := []
       , matchedUserSkill := none } : SkillGap).requiredLevel -
        ({ skillName := "Python", currentLevel := 0, requiredLevel := 5, gap := 5
         , priority := "critical", recommendations := []
         , matchedUserSkill := none } : SkillGap).currentLevel ∧
    (({ skillName := "Python", currentLevel := 0, requiredLevel := 5, gap := 5
      , priority := "critical", recommendations := []
      , matchedUserSkill := none } : SkillGap).gap : ℤ) =
      max 0 ((5 : ℤ) - (0 : ℤ)) ∧
    0 < ({ skillName := "Python", currentLevel := 0, requiredLevel := 5, gap := 5
         , priority := "critical", recommendations := []
         , matchedUserSkill := none } : SkillGap).gap :=
  C8_gap_nonneg [] [⟨"Python", 5, "critical"⟩]
    { skillName := "Python", currentLevel := 0, requiredLevel := 5, gap := 5
    , priority := "critical", recommendations := [], matchedUserSkill := none }
    (by decide)

/-- C6: `criticalGaps` (tracked with original requirement indices) is
strictly ordered by priority rank ascending (critical=0, high=1, medium=2,
low=3), then gap descending, then original requirement order; the stored
list is the tagged list with indices dropped.  Since the pipeline is a pure
function of its inputs, repeated analyses with unchanged inputs produce
identical ordering. -/
theorem C6_ordering (us : List UserSkill) (ts : List TargetSkill)
    (_hp : ∀ t ∈ ts, t.priority ∈ (["critical", "high", "medium", "low"] : List String)) :
    criticalGaps us ts = (criticalGapsTagged us ts).map Prod.snd ∧
    (criticalGapsTagged us ts).Pairwise (fun a b =>
      priorityRank a.2.priority < priorityRank b.2.priority ∨
        (priorityRank a.2.priority = priorityRank b.2.priority ∧
          (b.2.gap < a.2.gap ∨ (a.2.gap = b.2.gap ∧ a.1 < b.1)))) := by
  refine ⟨rfl, ?_⟩
  have hs : List.Sorted gapLE (criticalGapsTagged us ts) :=
    List.sorted_insertionSort gapLE _
  have hperm : (criticalGapsTagged us ts).Perm
      ((gapRecords us ts).enum.filter (fun p => decide (0 < p.2.gap))) :=
    List.perm_insertionSort gapLE _
  have h1 : (((gapRecords us ts).enum).map Prod.fst).Nodup := by
    rw [List.enum_map_fst]
    exact List.nodup_range _
  have h2 : ((((gapRecords us ts).enum.filter
      (fun p => decide (0 < p.2.gap)))).map Prod.fst).Nodup :=
    ((List.filter_sublist _).map Prod.fst).nodup h1
  have h3 : ((criticalGapsTagged us ts).map Prod.fst).Nodup :=
    ((hperm.map Prod.fst).symm).nodup h2
  have hne : (criticalGapsTagged us ts).Pairwise (fun a b => a.1 ≠ b.1) :=
    List.pairwise_map.mp h3
  have hcomb := List.Pairwise.and hs hne
  refine hcomb.imp ?_
  intro a b hab
  obtain ⟨hle, hne'⟩ := hab
  unfold gapLE at hle
  omega

/-- Witness for C6 at a concrete mixed-priority requirement list. -/
theorem C6_ordering_witness :
    criticalGaps []
        [⟨"A", 2, "low"⟩, ⟨"B", 5, "critical"⟩, ⟨"C", 3, "critical"⟩,
         ⟨"D", 3, "high"⟩, ⟨"E", 2, "low"⟩] =
      (criticalGapsTagged []
        [⟨"A", 2, "low"⟩, ⟨"B", 5, "critical"⟩, ⟨"C", 3, "critical"⟩,
         ⟨"D", 3, "high"⟩, ⟨"E", 2, "low"⟩]).map Prod.snd ∧
    (criticalGapsTagged []
        [⟨"A", 2, "low"⟩, ⟨"B", 5, "critical"⟩, ⟨"C", 3, "critical"⟩,
         ⟨"D", 3, "high"⟩, ⟨"E", 2, "low"⟩]).Pairwise (fun a b =>
      priorityRank a.2.priority < priorityRank b.2.priority ∨
        (priorityRank a.2.priority = priorityRank b.2.priority ∧
          (b.2.gap < a.2.gap ∨ (a.2.gap = b.2.gap ∧ a.1 < b.1)))) :=
  C6_ordering []
    [⟨"A", 2, "low"⟩, ⟨"B", 5, "critical"⟩, ⟨"C", 3, "critical"⟩,
     ⟨"D", 3, "high"⟩, ⟨"E", 2, "low"⟩] (by decide)

/-- C9: after a recompute with a non-empty requirement set, every required
skill name has a lowercase-equal record in the user's profile; the original
profile rows survive unchanged as a prefix (the write only inserts); and
every inserted row has proficiency 0 and source `role_requirement`. -/
theorem C9_auto_add (profile : List SkillRecord) (ts : List TargetSkill)
    (h : ts ≠ []) :
    (∀ t ∈ ts, ∃ r ∈ autoAdd profile ts,
      lowerStr r.skill_name = lowerStr t.skill_name) ∧
    profile <+: autoAdd profile ts ∧
    (∀ r ∈ autoAdd profile ts, r ∉ profile →
      r.proficiency_level = 0 ∧ r.source = "role_requirement") := by
  have hne : ts.isEmpty = false := by
    cases ts with
    | nil => exact absurd rfl h
    | cons a l => rfl
  rw [autoAdd, hne]
  simp only [Bool.false_eq_true, if_false]
  refine ⟨?_, List.prefix_append _ _, ?_⟩
  · intro t ht
    by_cases hc : lowerStr t.skill_name ∈ profile.map (fun s => lowerStr s.skill_name)
    · rcases List.mem_map.mp hc with ⟨r, hr, hrt⟩
      exact ⟨r, List.mem_append_left _ hr, hrt⟩
    · refine ⟨⟨t.skill_name, 0, "role_requirement"⟩, List.mem_append_right _ ?_, rfl⟩
      refine List.mem_map.mpr ⟨t, ?_, rfl⟩
      rw [List.mem_filter]
      refine ⟨ht, ?_⟩
      simpa using hc
  · intro r hr hrp
    rcases List.mem_append.mp hr with hl | hl
    · exact absurd hl hrp
    · rcases List.mem_map.mp hl with ⟨t, _, hrt⟩
      rw [← hrt]
      exact ⟨rfl, rfl⟩

/-- Witness for C9: one pre-existing skill (`SQL`, matching required `sql`
case-insensitively) and one missing required skill (`Python`). -/
theorem C9_auto_add_witness :
    (∀ t ∈ [(⟨"sql", 4, "critical"⟩ : TargetSkill), ⟨"Python", 5, "high"⟩],
      ∃ r ∈ autoAdd [⟨"SQL", 2, "manual"⟩]
          [⟨"sql", 4, "critical"⟩, ⟨"Python", 5, "high"⟩],
        lowerStr r.skill_name = lowerStr t.skill_name) ∧
    [(⟨"SQL", 2, "manual"⟩ : SkillRecord)] <+:
      autoAdd [⟨"SQL", 2, "manual"⟩] [⟨"sql", 4, "critical"⟩, ⟨"Python", 5, "high"⟩] ∧
    (∀ r ∈ autoAdd [⟨"SQL", 2, "manual"⟩]
        [⟨"sql", 4, "critical"⟩, ⟨"Python", 5, "high"⟩],
      r ∉ [(⟨"SQL", 2, "manual"⟩ : SkillRecord)] →
        r.proficiency_level = 0 ∧ r.source = "role_requirement") :=
  C9_auto_add [⟨"SQL", 2, "manual"⟩] [⟨"sql", 4, "critical"⟩, ⟨"Python", 5, "high"⟩]
    (by decide)

end CareerGuide
